import Mathlib

/-!
Shallow embedding of the core of `src/app/services/simulation_engine.py`
(functions `calculate_damage_from_pair_model` and `predict_pha_risk`).

Modelling conventions:
* Floating point numbers are idealised as real numbers; decimal literals
  such as `0.449`, `5.08`, `4.184e15` denote the exact rationals they
  spell, and the Python expressions `1/3`, `-1/3` denote the exact
  rationals 1/3, -1/3.
* The energy value at line 77 is multiplied by `np.sin(...)` and is
  therefore a numpy `float64`, as is everything computed from it.  For
  numpy `float64` scalars, `0.0 ** negative` yields `inf`,
  `negative ** fractional` yields `nan`, and `x / 0.0` yields `nan` or
  `±inf`, in each case with a RuntimeWarning only — no exception is
  raised, so the blanket `try/except` of lines 66 to 118 never fires for
  real-valued inputs and the `None` return at line 118 is unreachable for
  them.  Two models of the computation are given:
  - `calculate_damage_np`, the faithful model: total, over `NpFloat`
    (reals extended with `inf`, `-inf` and `nan`), propagating non-finite
    values exactly as IEEE-754/numpy arithmetic does;
  - `calculate_damage_from_pair_model`, a strict model in which every
    inf/nan-producing step (`pyPow`, `pyDiv`) is instead treated as a
    failure, threaded with `Option.bind`.  The lemma `calc_np_agrees`
    proves the two models agree (all values finite) on every input on
    which the strict model succeeds, i.e. whenever the computed energy is
    positive; the success-path theorems below are stated over the strict
    model on exactly that domain.
* The integer powers `** 3` and `** 2` of the source are total and are
  modelled with monoid powers; the fractional powers go through `pyPow`
  (strict) or `npPow` (faithful).
-/

/-- Input record of `calculate_damage_from_pair_model`, in the order and with
the names of the Python signature. -/
structure ImpactInputs where
  diameter_km : ℝ
  velocity_km_s : ℝ
  impact_angle : ℝ
  densidade_rho : ℝ
  eficiencia_eta : ℝ

/-- The `results` dictionary built at the end of
`calculate_damage_from_pair_model`, one field per key. -/
structure DamageResult where
  energia_megatons : ℝ
  altitude_explosao_km : ℝ
  raio_dano_explosao_km : ℝ
  raio_dano_termico_km : ℝ
  raio_dano_final_km : ℝ
  kinetic_energy_joules : ℝ

/-- Strict model of the power `x ** y` for a fractional exponent: the two
cases in which numpy `float64` power produces a non-finite value from
finite operands (`0 ** negative` gives `inf`, `negative ** fractional`
gives `nan`, each with a RuntimeWarning) are treated as failures;
otherwise it is the real power `x ^ y`.  The faithful non-finite behaviour
is `npPow` below; the two agree whenever the base is positive, and on a
nonnegative base with nonnegative exponent. -/
noncomputable def pyPow (x y : ℝ) : Option ℝ :=
  if x < 0 then none
  else if x = 0 ∧ y < 0 then none
  else some (x ^ y)

/-- Strict model of `float64` division: a zero denominator (numpy yields
`nan` or `±inf` with a RuntimeWarning) is treated as a failure.  The
faithful behaviour is `npDivFin` below. -/
noncomputable def pyDiv (x y : ℝ) : Option ℝ :=
  if y = 0 then none else some (x / y)

/-- np.radians: degrees to radians. -/
noncomputable def radians (x : ℝ) : ℝ := x * Real.pi / 180

/-- Python `round(x, 2)`: rounding to two decimal places, modelled with
Mathlib round (the two differ only on exact ties, which none of the claims
depend on). -/
noncomputable def round2 (x : ℝ) : ℝ := (round (x * 100) : ℤ) / 100

/-- Line 69: `raio_m = (diameter_km * 1000) / 2`. -/
noncomputable def raio_m (p : ImpactInputs) : ℝ := p.diameter_km * 1000 / 2

/-- Line 70: `velocidade_m_s = velocity_km_s * 1000`. -/
noncomputable def velocidade_m_s (p : ImpactInputs) : ℝ := p.velocity_km_s * 1000

/-- Line 73: `volume_m3 = (4/3) * np.pi * (raio_m ** 3)`. -/
noncomputable def volume_m3 (p : ImpactInputs) : ℝ :=
  4 / 3 * Real.pi * raio_m p ^ 3

/-- Line 74: `massa_kg = densidade_rho * volume_m3`. -/
noncomputable def massa_kg (p : ImpactInputs) : ℝ := p.densidade_rho * volume_m3 p

/-- Line 77: `energia_cinetica_j = 0.5 * massa_kg * (velocidade_m_s ** 2) *
np.sin(np.radians(impact_angle))`. -/
noncomputable def energia_cinetica_j (p : ImpactInputs) : ℝ :=
  0.5 * massa_kg p * velocidade_m_s p ^ 2 * Real.sin (radians p.impact_angle)

/-- Line 80: `energia_E_megatons = energia_cinetica_j / 4.184e15`. -/
noncomputable def energia_E_megatons (p : ImpactInputs) : ℝ :=
  energia_cinetica_j p / 4.184e15

/-- Lines 83 to 86: the regime selector producing the burst altitude `h`. -/
noncomputable def altitude_h_km (p : ImpactInputs) : ℝ :=
  if p.diameter_km < 0.05 then 5.0 else 0.0

/-- Lines 92 to 95: the blast-radius computation, branched on `h > 0`;
each fractional power goes through `pyPow`. -/
noncomputable def blastRadius (E h : ℝ) : Option ℝ :=
  if h > 0 then
    (pyPow h (-0.449)).bind fun ha =>
    (pyPow E (-1 / 3)).bind fun ea =>
    (pyPow E (1 / 3)).bind fun eb =>
    some (2.09 * ha * h ^ 2 * ea + 5.08 * eb)
  else
    (pyPow E (1 / 3)).bind fun eb =>
    some (5.08 * eb)

/-- Lines 98 to 103: the thermal-radius computation (`Zi`, `r_sq`, `h_sq`,
and the clamped square root). -/
noncomputable def thermalRadius (E h eta : ℝ) : Option ℝ :=
  (pyPow E (1 / 6)).bind fun e6 =>
  let Zi := 0.42 * e6
  (pyDiv (eta * E) (2 * Real.pi * Zi)).bind fun r_sq =>
  let h_sq := h ^ 2
  some (if r_sq > h_sq then Real.sqrt (r_sq - h_sq) else 0.0)

/-- Lines 66 to 118: strict model of `calculate_damage_from_pair_model`,
in which every inf/nan-producing arithmetic step counts as a failure and
yields `none`.  Note that the source itself never returns `None` for
real-valued inputs: numpy warns instead of raising, so the `except` at
line 116 never fires; the faithful total model is `calculate_damage_np`
below, and the two agree on every input with positive computed energy
(`calc_np_agrees`). -/
noncomputable def calculate_damage_from_pair_model (p : ImpactInputs) :
    Option DamageResult :=
  let E := energia_E_megatons p
  let h := altitude_h_km p
  (blastRadius E h).bind fun raio_blast_km =>
  (thermalRadius E h p.eficiencia_eta).bind fun raio_thermal_km =>
  some
    { energia_megatons := round2 E
      altitude_explosao_km := round2 h
      raio_dano_explosao_km := round2 raio_blast_km
      raio_dano_termico_km := round2 raio_thermal_km
      raio_dano_final_km := round2 (max raio_blast_km raio_thermal_km)
      kinetic_energy_joules := energia_cinetica_j p }

/-- Lines 43 to 46: the fixed feature order passed as DataFrame columns. -/
def features_order : List String :=
  ["absolute_magnitude_h", "diameter_km_avg", "velocity_km_s",
   "miss_distance_km", "kinetic_energy_joules"]

/-- Line 48: the single DataFrame row handed to the classifier, as the list
of the feature values of `features_dict` in the fixed order. -/
def build_input_df (features_dict : String → ℝ) : List ℝ :=
  features_order.map features_dict

/-- Lines 36 to 54: `predict_pha_risk`.  The module-level classifier handle is
the first argument (`none` models a failed load); a classifier maps the
feature row to `none` when `predict` raises, otherwise to its prediction
list, whose entries are already coerced to booleans.  An empty prediction
list models `prediction[0]` raising IndexError inside the `try`. -/
def predict_pha_risk (pha_classifier_model : Option (List ℝ → Option (List Bool)))
    (features_dict : String → ℝ) : Bool :=
  match pha_classifier_model with
  | none => false
  | some m =>
    match m (build_input_df features_dict) with
    | none => false
    | some [] => false
    | some (b :: _) => b

/-- Unrounded ground-impact blast radius formula (line 95). -/
noncomputable def groundBlastVal (E : ℝ) : ℝ := 5.08 * E ^ (1 / 3 : ℝ)

/-- Unrounded airburst blast radius formula (line 93). -/
noncomputable def airBlastVal (h E : ℝ) : ℝ :=
  2.09 * h ^ (-0.449 : ℝ) * h ^ 2 * E ^ (-1 / 3 : ℝ) + 5.08 * E ^ (1 / 3 : ℝ)

/-- Unrounded thermal radius value (lines 99 to 103) in the non-failing case. -/
noncomputable def thermalVal (E h eta : ℝ) : ℝ :=
  if eta * E / (2 * Real.pi * (0.42 * E ^ (1 / 6 : ℝ))) > h ^ 2 then
    Real.sqrt (eta * E / (2 * Real.pi * (0.42 * E ^ (1 / 6 : ℝ))) - h ^ 2)
  else 0.0

/-- The result record produced on a successful ground-impact run. -/
noncomputable def groundResult (p : ImpactInputs) : DamageResult :=
  { energia_megatons := round2 (energia_E_megatons p)
    altitude_explosao_km := round2 0
    raio_dano_explosao_km := round2 (groundBlastVal (energia_E_megatons p))
    raio_dano_termico_km :=
      round2 (thermalVal (energia_E_megatons p) 0 p.eficiencia_eta)
    raio_dano_final_km :=
      round2 (max (groundBlastVal (energia_E_megatons p))
        (thermalVal (energia_E_megatons p) 0 p.eficiencia_eta))
    kinetic_energy_joules := energia_cinetica_j p }

/-- The result record produced on a successful airburst run. -/
noncomputable def airResult (p : ImpactInputs) : DamageResult :=
  { energia_megatons := round2 (energia_E_megatons p)
    altitude_explosao_km := round2 5
    raio_dano_explosao_km := round2 (airBlastVal 5 (energia_E_megatons p))
    raio_dano_termico_km :=
      round2 (thermalVal (energia_E_megatons p) 5 p.eficiencia_eta)
    raio_dano_final_km :=
      round2 (max (airBlastVal 5 (energia_E_megatons p))
        (thermalVal (energia_E_megatons p) 5 p.eficiencia_eta))
    kinetic_energy_joules := energia_cinetica_j p }

/-- Demonstration input from the spec test table (ground impact). -/
noncomputable def p_ground : ImpactInputs :=
  { diameter_km := 0.14, velocity_km_s := 19, impact_angle := 90
    densidade_rho := 3000, eficiencia_eta := 0.3 }

/-- A second ground-impact input with a larger diameter. -/
noncomputable def p_ground2 : ImpactInputs :=
  { diameter_km := 0.28, velocity_km_s := 19, impact_angle := 90
    densidade_rho := 3000, eficiencia_eta := 0.3 }

/-- Demonstration airburst input (30 m object). -/
noncomputable def p_air : ImpactInputs :=
  { diameter_km := 0.03, velocity_km_s := 19, impact_angle := 90
    densidade_rho := 3000, eficiencia_eta := 0.3 }

/-- A numpy `float64` value in the idealisation: a real number, `inf`,
`-inf`, or `nan` (float rounding and overflow of finite values are
ignored, as in the rest of the embedding). -/
inductive NpFloat where
  | fin : ℝ → NpFloat
  | posInf : NpFloat
  | negInf : NpFloat
  | nan : NpFloat

/-- Faithful numpy `float64` power for a fractional exponent:
`0.0 ** negative` yields `inf` and `negative ** fractional` yields `nan`,
each with a RuntimeWarning only; otherwise the real power. -/
noncomputable def npPow (x y : ℝ) : NpFloat :=
  if x < 0 then .nan
  else if x = 0 ∧ y < 0 then .posInf
  else .fin (x ^ y)

/-- Multiplication of a `float64` by a finite real factor (the source only
multiplies possibly non-finite values by finite ones). -/
noncomputable def npScale (c : ℝ) : NpFloat → NpFloat
  | .fin x => .fin (c * x)
  | .posInf => if 0 < c then .posInf else if c < 0 then .negInf else .nan
  | .negInf => if 0 < c then .negInf else if c < 0 then .posInf else .nan
  | .nan => .nan

/-- IEEE-754 addition of two `float64` values. -/
noncomputable def npAdd : NpFloat → NpFloat → NpFloat
  | .nan, _ => .nan
  | _, .nan => .nan
  | .fin x, .fin y => .fin (x + y)
  | .posInf, .fin _ => .posInf
  | .fin _, .posInf => .posInf
  | .posInf, .posInf => .posInf
  | .negInf, .fin _ => .negInf
  | .fin _, .negInf => .negInf
  | .negInf, .negInf => .negInf
  | .posInf, .negInf => .nan
  | .negInf, .posInf => .nan

/-- Faithful `float64` division with a finite numerator (the source
divides the finite `eta * E` by the possibly non-finite denominator):
division by zero yields `nan` (0/0) or `±inf`, with a warning only. -/
noncomputable def npDivFin (x : ℝ) : NpFloat → NpFloat
  | .fin d =>
      if d = 0 then (if x = 0 then .nan else if 0 < x then .posInf else .negInf)
      else .fin (x / d)
  | .posInf => .fin 0
  | .negInf => .fin 0
  | .nan => .nan

/-- Line 103 for a possibly non-finite `r_sq` and finite `h_sq`: pointwise
evaluation of `np.sqrt(r_sq - h_sq) if r_sq > h_sq else 0.0` under IEEE
comparison semantics (`nan > h_sq` is false, `inf > h_sq` is true and
`sqrt(inf - h_sq) = inf`). -/
noncomputable def npThermalTail (r_sq : NpFloat) (h_sq : ℝ) : NpFloat :=
  match r_sq with
  | .fin x => if x > h_sq then .fin (Real.sqrt (x - h_sq)) else .fin 0.0
  | .posInf => .posInf
  | .negInf => .fin 0.0
  | .nan => .fin 0.0

/-- CPython `max(a, b)` (line 111): keeps `a` unless `b > a`, with IEEE
comparisons, so `max(nan, y) = nan` and `max(inf, y) = inf`. -/
noncomputable def npMax : NpFloat → NpFloat → NpFloat
  | .nan, _ => .nan
  | a, .nan => a
  | .posInf, _ => .posInf
  | .fin _, .posInf => .posInf
  | .negInf, .posInf => .posInf
  | .fin x, .fin y => if y > x then .fin y else .fin x
  | .fin x, .negInf => .fin x
  | .negInf, .fin y => .fin y
  | .negInf, .negInf => .negInf

/-- Python `round(x, 2)` on a `float64`: `round(inf) = inf`,
`round(nan) = nan`. -/
noncomputable def npRound : NpFloat → NpFloat
  | .fin x => .fin (round2 x)
  | .posInf => .posInf
  | .negInf => .negInf
  | .nan => .nan

/-- Lines 92 to 95 under faithful numpy semantics.  In the airburst branch
`h > 0`, so the powers of `h` are finite and the leading coefficient
`2.09 * h ** -0.449 * h ** 2` is the finite real it spells. -/
noncomputable def npBlastRadius (E h : ℝ) : NpFloat :=
  if h > 0 then
    npAdd (npScale (2.09 * h ^ (-0.449 : ℝ) * h ^ 2) (npPow E (-1 / 3)))
      (npScale 5.08 (npPow E (1 / 3)))
  else
    npScale 5.08 (npPow E (1 / 3))

/-- Lines 98 to 103 under faithful numpy semantics. -/
noncomputable def npThermalRadius (E h eta : ℝ) : NpFloat :=
  let e6 := npPow E (1 / 6)
  let Zi := npScale 0.42 e6
  let r_sq := npDivFin (eta * E) (npScale (2 * Real.pi) Zi)
  npThermalTail r_sq (h ^ 2)

/-- The `results` dictionary with possibly non-finite entries. -/
structure NpDamageResult where
  energia_megatons : NpFloat
  altitude_explosao_km : NpFloat
  raio_dano_explosao_km : NpFloat
  raio_dano_termico_km : NpFloat
  raio_dano_final_km : NpFloat
  kinetic_energy_joules : NpFloat

/-- Lines 66 to 118 under faithful numpy `float64` semantics: total,
because nothing in the body raises for real-valued inputs (numpy emits
RuntimeWarnings and continues), so the `except` at line 116 never fires
and a fully populated dictionary is always returned. -/
noncomputable def calculate_damage_np (p : ImpactInputs) : NpDamageResult :=
  let E := energia_E_megatons p
  let h := altitude_h_km p
  let raio_blast_km := npBlastRadius E h
  let raio_thermal_km := npThermalRadius E h p.eficiencia_eta
  { energia_megatons := npRound (.fin E)
    altitude_explosao_km := npRound (.fin h)
    raio_dano_explosao_km := npRound raio_blast_km
    raio_dano_termico_km := npRound raio_thermal_km
    raio_dano_final_km := npRound (npMax raio_blast_km raio_thermal_km)
    kinetic_energy_joules := .fin (energia_cinetica_j p) }

/-- A strict-model result viewed as a (finite-valued) numpy result. -/
noncomputable def npOfResult (r : DamageResult) : NpDamageResult :=
  { energia_megatons := .fin r.energia_megatons
    altitude_explosao_km := .fin r.altitude_explosao_km
    raio_dano_explosao_km := .fin r.raio_dano_explosao_km
    raio_dano_termico_km := .fin r.raio_dano_termico_km
    raio_dano_final_km := .fin r.raio_dano_final_km
    kinetic_energy_joules := .fin r.kinetic_energy_joules }

section Lemmas

lemma pyPow_of_pos {x : ℝ} (hx : 0 < x) (y : ℝ) : pyPow x y = some (x ^ y) := by
  unfold pyPow
  rw [if_neg (not_lt.mpr hx.le), if_neg (by rintro ⟨h0, -⟩; exact hx.ne' h0)]

lemma pyPow_of_nonneg {x y : ℝ} (hx : 0 ≤ x) (hy : 0 ≤ y) :
    pyPow x y = some (x ^ y) := by
  unfold pyPow
  rw [if_neg (not_lt.mpr hx), if_neg (by rintro ⟨-, hneg⟩; exact absurd hy (not_le.mpr hneg))]

lemma pyPow_zero_of_neg {y : ℝ} (hy : y < 0) : pyPow 0 y = none := by
  unfold pyPow
  rw [if_neg (lt_irrefl 0), if_pos ⟨rfl, hy⟩]

lemma pyPow_of_neg {x : ℝ} (hx : x < 0) (y : ℝ) : pyPow x y = none := by
  unfold pyPow
  rw [if_pos hx]

lemma pyPow_eq_some {x y v : ℝ} (h : pyPow x y = some v) : 0 ≤ x ∧ v = x ^ y := by
  unfold pyPow at h
  by_cases h1 : x < 0
  · rw [if_pos h1] at h; exact absurd h (by simp)
  · rw [if_neg h1] at h
    by_cases h2 : x = 0 ∧ y < 0
    · rw [if_pos h2] at h; exact absurd h (by simp)
    · rw [if_neg h2] at h
      exact ⟨not_lt.mp h1, (Option.some.injEq _ _ ▸ h).symm⟩

lemma pyDiv_of_ne {x y : ℝ} (hy : y ≠ 0) : pyDiv x y = some (x / y) := by
  unfold pyDiv
  rw [if_neg hy]

lemma pyDiv_of_eq (x : ℝ) : pyDiv x 0 = none := by
  unfold pyDiv
  rw [if_pos rfl]

lemma round_le_round {a b : ℝ} (h : a ≤ b) : round a ≤ round b := by
  rw [round_eq, round_eq]
  exact Int.floor_le_floor (by linarith)

lemma round2_mono : Monotone round2 := by
  intro a b h
  unfold round2
  have hc : ((round (a * 100) : ℤ) : ℝ) ≤ ((round (b * 100) : ℤ) : ℝ) :=
    Int.cast_le.mpr (round_le_round (by linarith))
  linarith

lemma round2_nonneg {x : ℝ} (hx : 0 ≤ x) : 0 ≤ round2 x := by
  have := round2_mono hx
  simpa [round2, round_zero] using this

lemma round2_zero : round2 0 = 0 := by
  simp [round2, round_zero]

lemma round2_five : round2 5 = 5 := by
  unfold round2
  have h5 : (5 : ℝ) * 100 = ((500 : ℤ) : ℝ) := by norm_num
  rw [h5, round_intCast]
  norm_num

/-- Ground branch of the blast-radius model: with altitude 0 the airburst
formula is never entered. -/
lemma blastRadius_zero (E : ℝ) :
    blastRadius E 0 = (pyPow E (1 / 3)).bind fun eb => some (5.08 * eb) := by
  unfold blastRadius
  rw [if_neg (lt_irrefl 0)]

lemma blastRadius_zero_of_nonneg {E : ℝ} (hE : 0 ≤ E) :
    blastRadius E 0 = some (groundBlastVal E) := by
  rw [blastRadius_zero, pyPow_of_nonneg hE (by norm_num)]
  rfl

lemma blastRadius_five_of_pos {E : ℝ} (hE : 0 < E) :
    blastRadius E 5 = some (airBlastVal 5 E) := by
  unfold blastRadius
  rw [if_pos (by norm_num : (5 : ℝ) > 0), pyPow_of_pos (by norm_num : (0:ℝ) < 5),
    pyPow_of_pos hE, pyPow_of_pos hE]
  rfl

lemma blastRadius_none_of_nonpos {E h : ℝ} (hE : E ≤ 0) (hh : 0 < h) :
    blastRadius E h = none := by
  have hneg : pyPow E (-1 / 3) = none := by
    rcases lt_or_eq_of_le hE with hlt | heq
    · exact pyPow_of_neg hlt _
    · rw [heq]; exact pyPow_zero_of_neg (by norm_num)
  unfold blastRadius
  rw [if_pos hh]
  cases pyPow h (-0.449) <;> simp [hneg]

lemma blastRadius_zero_none_iff {E : ℝ} : blastRadius E 0 = none ↔ E < 0 := by
  rw [blastRadius_zero]
  constructor
  · intro hnone
    by_contra hge
    rw [pyPow_of_nonneg (not_lt.mp hge) (by norm_num)] at hnone
    simp at hnone
  · intro hlt
    rw [pyPow_of_neg hlt]
    rfl

/-- The thermal step fails exactly when the energy is not positive: for
negative energy the fractional power fails, and for zero energy
Zi = 0.42 * 0 = 0 makes the division raise. -/
lemma thermalRadius_none_iff {E h eta : ℝ} :
    thermalRadius E h eta = none ↔ E ≤ 0 := by
  unfold thermalRadius
  rcases lt_trichotomy E 0 with hlt | heq | hgt
  · rw [pyPow_of_neg hlt]
    simp [hlt.le]
  · subst heq
    rw [pyPow_of_nonneg le_rfl (by norm_num), Real.zero_rpow (by norm_num)]
    simp [pyDiv_of_eq]
  · rw [pyPow_of_pos hgt]
    have hd : 2 * Real.pi * (0.42 * E ^ (1 / 6 : ℝ)) ≠ 0 := by
      have h6 : 0 < E ^ (1 / 6 : ℝ) := Real.rpow_pos_of_pos hgt _
      positivity
    simp only [Option.some_bind, pyDiv_of_ne hd]
    simp [not_le.mpr hgt]

lemma thermalRadius_of_pos {E h eta : ℝ} (hE : 0 < E) :
    thermalRadius E h eta = some (thermalVal E h eta) := by
  unfold thermalRadius
  rw [pyPow_of_pos hE]
  have hd : 2 * Real.pi * (0.42 * E ^ (1 / 6 : ℝ)) ≠ 0 := by
    have h6 : 0 < E ^ (1 / 6 : ℝ) := Real.rpow_pos_of_pos hE _
    positivity
  simp only [Option.some_bind, pyDiv_of_ne hd]
  rfl

lemma altitude_ground {p : ImpactInputs} (hd : ¬ p.diameter_km < 0.05) :
    altitude_h_km p = 0 := by
  unfold altitude_h_km
  rw [if_neg hd]
  norm_num

lemma altitude_air {p : ImpactInputs} (hd : p.diameter_km < 0.05) :
    altitude_h_km p = 5 := by
  unfold altitude_h_km
  rw [if_pos hd]
  norm_num

lemma calc_ground_eq (p : ImpactInputs) (hd : ¬ p.diameter_km < 0.05)
    (hE : 0 < energia_E_megatons p) :
    calculate_damage_from_pair_model p = some (groundResult p) := by
  simp only [calculate_damage_from_pair_model, altitude_ground hd,
    blastRadius_zero_of_nonneg hE.le, thermalRadius_of_pos hE, Option.some_bind]
  rfl

lemma calc_air_eq (p : ImpactInputs) (hd : p.diameter_km < 0.05)
    (hE : 0 < energia_E_megatons p) :
    calculate_damage_from_pair_model p = some (airResult p) := by
  simp only [calculate_damage_from_pair_model, altitude_air hd,
    blastRadius_five_of_pos hE, thermalRadius_of_pos hE, Option.some_bind]
  rfl

lemma calc_none_of_nonpos (p : ImpactInputs)
    (hE : energia_E_megatons p ≤ 0) :
    calculate_damage_from_pair_model p = none := by
  by_cases hd : p.diameter_km < 0.05
  · simp only [calculate_damage_from_pair_model, altitude_air hd,
      blastRadius_none_of_nonpos hE (by norm_num : (0:ℝ) < 5), Option.none_bind]
  · simp only [calculate_damage_from_pair_model, altitude_ground hd,
      thermalRadius_none_iff.mpr hE]
    cases blastRadius (energia_E_megatons p) 0 <;> simp

lemma calc_pos_of_some {p : ImpactInputs} {r : DamageResult}
    (h : calculate_damage_from_pair_model p = some r) :
    0 < energia_E_megatons p := by
  by_contra hle
  rw [calc_none_of_nonpos p (not_lt.mp hle)] at h
  exact Option.noConfusion h

/-- Every successful run is exactly one of the two branch shapes. -/
lemma calc_cases {p : ImpactInputs} {r : DamageResult}
    (h : calculate_damage_from_pair_model p = some r) :
    0 < energia_E_megatons p ∧
      ((p.diameter_km < 0.05 ∧ r = airResult p) ∨
       (¬ p.diameter_km < 0.05 ∧ r = groundResult p)) := by
  have hE := calc_pos_of_some h
  refine ⟨hE, ?_⟩
  by_cases hd : p.diameter_km < 0.05
  · left
    rw [calc_air_eq p hd hE] at h
    exact ⟨hd, (Option.some.inj h).symm⟩
  · right
    rw [calc_ground_eq p hd hE] at h
    exact ⟨hd, (Option.some.inj h).symm⟩

lemma energia_pos_of (d v rho eta : ℝ) (hd : 0 < d) (hv : 0 < v)
    (hr : 0 < rho) :
    0 < energia_E_megatons ⟨d, v, 90, rho, eta⟩ := by
  simp only [energia_E_megatons, energia_cinetica_j, massa_kg, volume_m3,
    raio_m, velocidade_m_s, radians]
  rw [show (90 : ℝ) * Real.pi / 180 = Real.pi / 2 by ring, Real.sin_pi_div_two]
  have hpi := Real.pi_pos
  positivity

lemma energia_zero_of_angle_zero (p : ImpactInputs) (h : p.impact_angle = 0) :
    energia_cinetica_j p = 0 ∧ energia_E_megatons p = 0 := by
  have h1 : energia_cinetica_j p = 0 := by
    unfold energia_cinetica_j radians
    rw [h, show (0:ℝ) * Real.pi / 180 = 0 by ring, Real.sin_zero, mul_zero]
  refine ⟨h1, ?_⟩
  unfold energia_E_megatons
  rw [h1]
  norm_num

lemma thermalRadius_eq_some {E h eta t : ℝ}
    (ht : thermalRadius E h eta = some t) :
    0 < E ∧ t = thermalVal E h eta := by
  have hE : 0 < E := by
    by_contra hle
    rw [thermalRadius_none_iff.mpr (not_lt.mp hle)] at ht
    exact Option.noConfusion ht
  rw [thermalRadius_of_pos hE] at ht
  exact ⟨hE, (Option.some.inj ht).symm⟩

lemma thermalVal_nonneg (E h eta : ℝ) : 0 ≤ thermalVal E h eta := by
  unfold thermalVal
  split
  · exact Real.sqrt_nonneg _
  · norm_num

lemma groundBlastVal_mono {E1 E2 : ℝ} (h0 : 0 ≤ E1) (h12 : E1 ≤ E2) :
    groundBlastVal E1 ≤ groundBlastVal E2 := by
  unfold groundBlastVal
  have := Real.rpow_le_rpow h0 h12 (by norm_num : (0:ℝ) ≤ 1 / 3)
  linarith

lemma r_sq_eq {E eta : ℝ} (hE : 0 < E) :
    eta * E / (2 * Real.pi * (0.42 * E ^ (1 / 6 : ℝ))) =
      eta / (2 * Real.pi * 0.42) * E ^ (5 / 6 : ℝ) := by
  have h6 : 0 < E ^ (1 / 6 : ℝ) := Real.rpow_pos_of_pos hE _
  have hb : 2 * Real.pi * (0.42 * E ^ (1 / 6 : ℝ)) ≠ 0 := by positivity
  have hc : (2 * Real.pi * 0.42 : ℝ) ≠ 0 := by positivity
  have hsum : E ^ (5 / 6 : ℝ) * E ^ (1 / 6 : ℝ) = E := by
    rw [← Real.rpow_add hE]
    norm_num
  rw [div_eq_iff hb]
  have key : eta / (2 * Real.pi * 0.42) * E ^ (5 / 6 : ℝ) *
      (2 * Real.pi * (0.42 * E ^ (1 / 6 : ℝ))) = eta * E := by
    calc eta / (2 * Real.pi * 0.42) * E ^ (5 / 6 : ℝ) *
        (2 * Real.pi * (0.42 * E ^ (1 / 6 : ℝ)))
        = eta / (2 * Real.pi * 0.42) * (2 * Real.pi * 0.42) *
            (E ^ (5 / 6 : ℝ) * E ^ (1 / 6 : ℝ)) := by ring
      _ = eta * E := by rw [div_mul_cancel₀ _ hc, hsum]
  exact key.symm

lemma thermalVal_zero_eq (E eta : ℝ) :
    thermalVal E 0 eta =
      Real.sqrt (max (eta * E / (2 * Real.pi * (0.42 * E ^ (1 / 6 : ℝ)))) 0) := by
  unfold thermalVal
  rcases le_or_lt (eta * E / (2 * Real.pi * (0.42 * E ^ (1 / 6 : ℝ)))) 0 with h | h
  · rw [if_neg (by simpa using not_lt.mpr h), max_eq_right h, Real.sqrt_zero]
    norm_num
  · rw [if_pos (by simpa using h), max_eq_left h.le]
    norm_num

lemma thermalVal_zero_mono {eta E1 E2 : ℝ} (h1 : 0 < E1) (h12 : E1 ≤ E2) :
    thermalVal E1 0 eta ≤ thermalVal E2 0 eta := by
  have h2 : 0 < E2 := lt_of_lt_of_le h1 h12
  rw [thermalVal_zero_eq, thermalVal_zero_eq, r_sq_eq h1, r_sq_eq h2]
  apply Real.sqrt_le_sqrt
  rcases le_or_lt eta 0 with he | he
  · have hc : eta / (2 * Real.pi * 0.42) ≤ 0 :=
      div_nonpos_iff.mpr (Or.inr ⟨he, by positivity⟩)
    have m1 : eta / (2 * Real.pi * 0.42) * E1 ^ (5 / 6 : ℝ) ≤ 0 :=
      mul_nonpos_iff.mpr (Or.inr ⟨hc, Real.rpow_nonneg h1.le _⟩)
    have m2 : eta / (2 * Real.pi * 0.42) * E2 ^ (5 / 6 : ℝ) ≤ 0 :=
      mul_nonpos_iff.mpr (Or.inr ⟨hc, Real.rpow_nonneg h2.le _⟩)
    rw [max_eq_right m1, max_eq_right m2]
  · have hc : 0 ≤ eta / (2 * Real.pi * 0.42) := by positivity
    exact max_le_max
      (mul_le_mul_of_nonneg_left
        (Real.rpow_le_rpow h1.le h12 (by norm_num)) hc) le_rfl

lemma energia_factor (p : ImpactInputs) :
    energia_E_megatons p =
      p.diameter_km ^ 3 *
        (0.5 * (p.densidade_rho * (4 / 3 * Real.pi * (1000 / 2 : ℝ) ^ 3)) *
          (p.velocity_km_s * 1000) ^ 2 * Real.sin (radians p.impact_angle) /
          4.184e15) := by
  simp only [energia_E_megatons, energia_cinetica_j, massa_kg, volume_m3,
    raio_m, velocidade_m_s]
  ring

lemma calc_p_ground :
    calculate_damage_from_pair_model p_ground = some (groundResult p_ground) := by
  apply calc_ground_eq
  · show ¬ (0.14 : ℝ) < 0.05
    norm_num
  · exact energia_pos_of 0.14 19 3000 0.3 (by norm_num) (by norm_num) (by norm_num)

lemma calc_p_ground2 :
    calculate_damage_from_pair_model p_ground2 = some (groundResult p_ground2) := by
  apply calc_ground_eq
  · show ¬ (0.28 : ℝ) < 0.05
    norm_num
  · exact energia_pos_of 0.28 19 3000 0.3 (by norm_num) (by norm_num) (by norm_num)

lemma calc_p_air :
    calculate_damage_from_pair_model p_air = some (airResult p_air) := by
  apply calc_air_eq
  · show (0.03 : ℝ) < 0.05
    norm_num
  · exact energia_pos_of 0.03 19 3000 0.3 (by norm_num) (by norm_num) (by norm_num)

lemma npPow_of_pos {x : ℝ} (hx : 0 < x) (y : ℝ) : npPow x y = .fin (x ^ y) := by
  unfold npPow
  rw [if_neg (not_lt.mpr hx.le), if_neg (by rintro ⟨h0, -⟩; exact hx.ne' h0)]

lemma npPow_of_nonneg {x y : ℝ} (hx : 0 ≤ x) (hy : 0 ≤ y) :
    npPow x y = .fin (x ^ y) := by
  unfold npPow
  rw [if_neg (not_lt.mpr hx),
    if_neg (by rintro ⟨-, hneg⟩; exact absurd hy (not_le.mpr hneg))]

lemma npPow_zero_of_pos {y : ℝ} (hy : 0 < y) : npPow 0 y = .fin 0 := by
  rw [npPow_of_nonneg le_rfl hy.le, Real.zero_rpow hy.ne']

lemma npPow_zero_of_neg {y : ℝ} (hy : y < 0) : npPow 0 y = .posInf := by
  unfold npPow
  rw [if_neg (lt_irrefl 0), if_pos ⟨rfl, hy⟩]

lemma npBlastRadius_zero_zero : npBlastRadius 0 0 = .fin 0 := by
  unfold npBlastRadius
  rw [if_neg (lt_irrefl 0), npPow_zero_of_pos (by norm_num)]
  show NpFloat.fin (5.08 * 0) = .fin 0
  norm_num

lemma npBlastRadius_zero_five : npBlastRadius 0 5 = .posInf := by
  unfold npBlastRadius
  rw [if_pos (by norm_num : (5:ℝ) > 0), npPow_zero_of_neg (by norm_num),
    npPow_zero_of_pos (by norm_num)]
  have h5 : 0 < (5:ℝ) ^ (-0.449 : ℝ) := Real.rpow_pos_of_pos (by norm_num) _
  have hc : 0 < 2.09 * (5:ℝ) ^ (-0.449 : ℝ) * 5 ^ 2 := by positivity
  have hsc : npScale (2.09 * (5:ℝ) ^ (-0.449 : ℝ) * 5 ^ 2) .posInf = .posInf := by
    unfold npScale
    rw [if_pos hc]
  rw [hsc]
  rfl

lemma npThermalRadius_zero (h eta : ℝ) : npThermalRadius 0 h eta = .fin 0 := by
  unfold npThermalRadius
  rw [npPow_zero_of_pos (by norm_num)]
  norm_num [npScale, npDivFin, npThermalTail]

lemma npMax_fin (x y : ℝ) : npMax (.fin x) (.fin y) = .fin (max x y) := by
  simp only [npMax]
  by_cases h : y > x
  · rw [if_pos h, max_eq_right h.le]
  · rw [if_neg h, max_eq_left (not_lt.mp h)]

lemma npBlastRadius_agrees_ground {E : ℝ} (hE : 0 ≤ E) :
    npBlastRadius E 0 = .fin (groundBlastVal E) := by
  unfold npBlastRadius
  rw [if_neg (lt_irrefl 0), npPow_of_nonneg hE (by norm_num)]
  rfl

lemma npBlastRadius_agrees_air {E : ℝ} (hE : 0 < E) :
    npBlastRadius E 5 = .fin (airBlastVal 5 E) := by
  unfold npBlastRadius
  rw [if_pos (by norm_num : (5:ℝ) > 0), npPow_of_pos hE, npPow_of_pos hE]
  rfl

lemma npThermalRadius_agrees {E h eta : ℝ} (hE : 0 < E) :
    npThermalRadius E h eta = .fin (thermalVal E h eta) := by
  unfold npThermalRadius
  rw [npPow_of_pos hE]
  have h6 : 0 < E ^ (1 / 6 : ℝ) := Real.rpow_pos_of_pos hE _
  have hd : 2 * Real.pi * (0.42 * E ^ (1 / 6 : ℝ)) ≠ 0 := by positivity
  simp only [npScale, npDivFin, if_neg hd]
  by_cases hc : eta * E / (2 * Real.pi * (0.42 * E ^ (1 / 6 : ℝ))) > h ^ 2
  · simp only [npThermalTail, thermalVal, if_pos hc]
  · simp only [npThermalTail, thermalVal, if_neg hc]

/-- On the success domain of the strict model (positive energy) the
faithful numpy model returns exactly the same, finite-valued, record. -/
lemma calc_np_agrees {p : ImpactInputs} {r : DamageResult}
    (h : calculate_damage_from_pair_model p = some r) :
    calculate_damage_np p = npOfResult r := by
  obtain ⟨hE, hcase⟩ := calc_cases h
  rcases hcase with ⟨hd, rfl⟩ | ⟨hd, rfl⟩
  · simp only [calculate_damage_np, altitude_air hd,
      npBlastRadius_agrees_air hE, npThermalRadius_agrees hE, npMax_fin]
    rfl
  · simp only [calculate_damage_np, altitude_ground hd,
      npBlastRadius_agrees_ground hE.le, npThermalRadius_agrees hE, npMax_fin]
    rfl

end Lemmas

/-- C1: for every input on which calculate_damage_from_pair_model returns a
result, the final radius field equals the rounding of the maximum of the
unrounded blast and thermal radii, which coincides with the maximum of the
two rounded fields; in particular it is at least each of them. -/
theorem final_radius_is_max (p : ImpactInputs) (r : DamageResult)
    (h : calculate_damage_from_pair_model p = some r) :
    r.raio_dano_final_km = max r.raio_dano_explosao_km r.raio_dano_termico_km ∧
    r.raio_dano_explosao_km ≤ r.raio_dano_final_km ∧
    r.raio_dano_termico_km ≤ r.raio_dano_final_km := by
  obtain ⟨-, hcase⟩ := calc_cases h
  have key : ∀ a b : ℝ, round2 (max a b) = max (round2 a) (round2 b) :=
    fun a b => round2_mono.map_max
  rcases hcase with ⟨-, rfl⟩ | ⟨-, rfl⟩ <;>
    · simp only [airResult, groundResult, key]
      exact ⟨trivial, le_max_left _ _, le_max_right _ _⟩

/-- Witness for C1 at the ground-impact input of the spec test table. -/
theorem final_radius_is_max_witness :
    (groundResult p_ground).raio_dano_final_km =
      max (groundResult p_ground).raio_dano_explosao_km
        (groundResult p_ground).raio_dano_termico_km :=
  (final_radius_is_max p_ground (groundResult p_ground) calc_p_ground).1

/-- C2: the thermal radius field of any returned result is nonnegative, and
the thermal model yields the square root of r_sq - h_sq when r_sq exceeds
h_sq and exactly 0 when r_sq is at most h_sq, with Zi, r_sq, h_sq as in the
source. -/
theorem thermal_radius_clamped :
    (∀ (p : ImpactInputs) (r : DamageResult),
        calculate_damage_from_pair_model p = some r →
        0 ≤ r.raio_dano_termico_km) ∧
    (∀ E h eta t : ℝ, thermalRadius E h eta = some t →
        0 ≤ t ∧
        (h ^ 2 < eta * E / (2 * Real.pi * (0.42 * E ^ (1 / 6 : ℝ))) →
          t = Real.sqrt
            (eta * E / (2 * Real.pi * (0.42 * E ^ (1 / 6 : ℝ))) - h ^ 2)) ∧
        (eta * E / (2 * Real.pi * (0.42 * E ^ (1 / 6 : ℝ))) ≤ h ^ 2 →
          t = 0)) := by
  constructor
  · intro p r h
    obtain ⟨-, hcase⟩ := calc_cases h
    rcases hcase with ⟨-, rfl⟩ | ⟨-, rfl⟩ <;>
      exact round2_nonneg (thermalVal_nonneg _ _ _)
  · intro E h eta t ht
    obtain ⟨-, rfl⟩ := thermalRadius_eq_some ht
    refine ⟨thermalVal_nonneg _ _ _, fun hgt => ?_, fun hle => ?_⟩
    · unfold thermalVal
      rw [if_pos hgt]
    · unfold thermalVal
      rw [if_neg (not_lt.mpr hle)]
      norm_num

/-- Witness for C2: nonnegativity at a concrete returned result and at a
concrete thermal evaluation. -/
theorem thermal_radius_clamped_witness :
    0 ≤ (groundResult p_ground).raio_dano_termico_km ∧
    0 ≤ thermalVal 1 0 0.3 :=
  ⟨thermal_radius_clamped.1 p_ground _ calc_p_ground,
   (thermal_radius_clamped.2 1 0 0.3 (thermalVal 1 0 0.3)
      (thermalRadius_of_pos one_pos)).1⟩

/-- C3 (code bug): at the NaN-producing input (0.14, 19, 0, 3000, 0.3) the
thermal step computes r_sq = 0.0/0.0 = nan with a RuntimeWarning only, no
exception is raised, and calculate_damage_from_pair_model returns a fully
populated zero-filled dictionary instead of the None sentinel that the
claim and the spec error-handling design require. -/
theorem nan_input_returns_zero_filled :
    calculate_damage_np ⟨0.14, 19, 0, 3000, 0.3⟩ =
      { energia_megatons := .fin 0
        altitude_explosao_km := .fin 0
        raio_dano_explosao_km := .fin 0
        raio_dano_termico_km := .fin 0
        raio_dano_final_km := .fin 0
        kinetic_energy_joules := .fin 0 } := by
  obtain ⟨h1, h2⟩ := energia_zero_of_angle_zero ⟨0.14, 19, 0, 3000, 0.3⟩ rfl
  have halt : altitude_h_km ⟨0.14, 19, 0, 3000, 0.3⟩ = 0 :=
    altitude_ground (by show ¬ (0.14 : ℝ) < 0.05; norm_num)
  simp only [calculate_damage_np, halt, h1, h2, npBlastRadius_zero_zero,
    npThermalRadius_zero, npMax_fin, npRound, round2_zero, max_self]

/-- C4: predict_pha_risk returns false when the classifier handle is absent,
and returns false when the classifier invocation fails, for every feature
dictionary; being a total Lean function, it never raises. -/
theorem classify_pha_fail_safe :
    (∀ d : String → ℝ, predict_pha_risk none d = false) ∧
    (∀ (m : List ℝ → Option (List Bool)) (d : String → ℝ),
        m (build_input_df d) = none → predict_pha_risk (some m) d = false) := by
  refine ⟨fun d => rfl, fun m d hm => ?_⟩
  simp only [predict_pha_risk, hm]

/-- Witness for C4 with an absent handle and with a failing classifier. -/
theorem classify_pha_fail_safe_witness :
    predict_pha_risk none (fun _ => 0) = false ∧
    predict_pha_risk (some fun _ => none) (fun _ => 0) = false :=
  ⟨classify_pha_fail_safe.1 fun _ => 0,
   classify_pha_fail_safe.2 (fun _ => none) (fun _ => 0) rfl⟩

/-- C5 (code bug): the airburst branch with E = 0 is not guarded: numpy
evaluates 0.0 ** (-1/3) to inf with a RuntimeWarning only, the term
E ** (-1/3) is naively evaluated, and the call returns a dictionary whose
blast and final radius entries are inf, i.e. a result with a non-finite
blast radius, contradicting the claim. -/
theorem airburst_zero_energy_inf_blast :
    (calculate_damage_np ⟨0.03, 19, 0, 3000, 0.3⟩).raio_dano_explosao_km =
      NpFloat.posInf ∧
    (calculate_damage_np ⟨0.03, 19, 0, 3000, 0.3⟩).raio_dano_final_km =
      NpFloat.posInf := by
  obtain ⟨-, h2⟩ := energia_zero_of_angle_zero ⟨0.03, 19, 0, 3000, 0.3⟩ rfl
  have halt : altitude_h_km ⟨0.03, 19, 0, 3000, 0.3⟩ = 5 :=
    altitude_air (by show (0.03 : ℝ) < 0.05; norm_num)
  simp only [calculate_damage_np, halt, h2, npBlastRadius_zero_five,
    npThermalRadius_zero]
  exact ⟨rfl, rfl⟩

/-- C6: the diameter threshold selects the regime and formula: below 0.05
the burst altitude is exactly 5.0 and the blast field is the rounded
airburst formula at h = 5; otherwise the altitude is 0.0 and the blast field
is the rounded ground-impact formula. -/
theorem regime_and_blast_selection (p : ImpactInputs) (r : DamageResult)
    (h : calculate_damage_from_pair_model p = some r) :
    (p.diameter_km < 0.05 →
      altitude_h_km p = 5 ∧ r.altitude_explosao_km = 5 ∧
      r.raio_dano_explosao_km = round2 (airBlastVal 5 (energia_E_megatons p))) ∧
    (¬ p.diameter_km < 0.05 →
      altitude_h_km p = 0 ∧ r.altitude_explosao_km = 0 ∧
      r.raio_dano_explosao_km = round2 (groundBlastVal (energia_E_megatons p))) := by
  obtain ⟨-, hcase⟩ := calc_cases h
  rcases hcase with ⟨hd, rfl⟩ | ⟨hd, rfl⟩
  · refine ⟨fun _ => ⟨altitude_air hd, ?_, rfl⟩, fun hc => absurd hd hc⟩
    show round2 5 = 5
    exact round2_five
  · refine ⟨fun hc => absurd hc hd, fun _ => ⟨altitude_ground hd, ?_, rfl⟩⟩
    show round2 0 = 0
    exact round2_zero

/-- Witness for C6 at the airburst demonstration input. -/
theorem regime_and_blast_selection_witness :
    altitude_h_km p_air = 5 ∧ (airResult p_air).altitude_explosao_km = 5 ∧
    (airResult p_air).raio_dano_explosao_km =
      round2 (airBlastVal 5 (energia_E_megatons p_air)) :=
  (regime_and_blast_selection p_air (airResult p_air) calc_p_air).1
    (by show (0.03 : ℝ) < 0.05; norm_num)

/-- C7: for every input, the returned kinetic energy entry equals
0.5 * mass * velocity^2 * sin(radians(angle)) with mass from density and
spherical volume, and the megaton entry is its rounded conversion by
4.184e15; in particular an impact angle of 0 yields zero kinetic energy and
zero megatons and the function still returns a populated result (with zero
damage radii in the ground regime), not an error. -/
theorem energy_formula_np :
    (∀ p : ImpactInputs,
      (calculate_damage_np p).kinetic_energy_joules =
        NpFloat.fin
          (0.5 * (p.densidade_rho *
              (4 / 3 * Real.pi * (p.diameter_km * 1000 / 2) ^ 3)) *
            (p.velocity_km_s * 1000) ^ 2 *
            Real.sin (p.impact_angle * Real.pi / 180)) ∧
      (calculate_damage_np p).energia_megatons =
        NpFloat.fin (round2 (energia_cinetica_j p / 4.184e15))) ∧
    (∀ p : ImpactInputs, p.impact_angle = 0 →
      energia_cinetica_j p = 0 ∧ energia_E_megatons p = 0 ∧
      (calculate_damage_np p).kinetic_energy_joules = NpFloat.fin 0 ∧
      (calculate_damage_np p).energia_megatons = NpFloat.fin 0) ∧
    (∀ p : ImpactInputs, p.impact_angle = 0 → ¬ p.diameter_km < 0.05 →
      (calculate_damage_np p).raio_dano_explosao_km = NpFloat.fin 0 ∧
      (calculate_damage_np p).raio_dano_termico_km = NpFloat.fin 0 ∧
      (calculate_damage_np p).raio_dano_final_km = NpFloat.fin 0) := by
  refine ⟨fun p => ⟨?_, ?_⟩, fun p hp => ?_, fun p hp hd => ?_⟩
  · show NpFloat.fin (energia_cinetica_j p) = _
    simp only [energia_cinetica_j, massa_kg, volume_m3, raio_m,
      velocidade_m_s, radians]
  · rfl
  · obtain ⟨h1, h2⟩ := energia_zero_of_angle_zero p hp
    refine ⟨h1, h2, ?_, ?_⟩
    · show NpFloat.fin (energia_cinetica_j p) = _
      rw [h1]
    · show NpFloat.fin (round2 (energia_E_megatons p)) = _
      rw [h2, round2_zero]
  · obtain ⟨-, h2⟩ := energia_zero_of_angle_zero p hp
    have halt := altitude_ground hd
    simp only [calculate_damage_np, halt, h2, npBlastRadius_zero_zero,
      npThermalRadius_zero, npMax_fin, npRound, round2_zero, max_self]
    refine ⟨?_, ?_, ?_⟩ <;> trivial

/-- Witness for C7 at a concrete zero-angle ground-impact input. -/
theorem energy_formula_np_witness :
    energia_cinetica_j ⟨0.5, 12, 0, 2500, 0.4⟩ = 0 ∧
    (calculate_damage_np ⟨0.5, 12, 0, 2500, 0.4⟩).energia_megatons =
      NpFloat.fin 0 ∧
    (calculate_damage_np ⟨0.5, 12, 0, 2500, 0.4⟩).raio_dano_final_km =
      NpFloat.fin 0 :=
  ⟨(energy_formula_np.2.1 ⟨0.5, 12, 0, 2500, 0.4⟩ rfl).1,
   (energy_formula_np.2.1 ⟨0.5, 12, 0, 2500, 0.4⟩ rfl).2.2.2,
   (energy_formula_np.2.2 ⟨0.5, 12, 0, 2500, 0.4⟩ rfl
      (by show ¬ (0.5 : ℝ) < 0.05; norm_num)).2.2⟩

/-- C8: the feature row passed to the classifier is the list of exactly the
5 named features in the fixed order of the source, for every feature
dictionary, and predict_pha_risk consumes exactly that row. -/
theorem feature_vector_fixed_order :
    features_order.length = 5 ∧
    features_order =
      ["absolute_magnitude_h", "diameter_km_avg", "velocity_km_s",
       "miss_distance_km", "kinetic_energy_joules"] ∧
    (∀ d : String → ℝ,
      build_input_df d =
        [d "absolute_magnitude_h", d "diameter_km_avg", d "velocity_km_s",
         d "miss_distance_km", d "kinetic_energy_joules"]) ∧
    (∀ (m : List ℝ → Option (List Bool)) (d : String → ℝ),
      predict_pha_risk (some m) d =
        match m [d "absolute_magnitude_h", d "diameter_km_avg",
            d "velocity_km_s", d "miss_distance_km",
            d "kinetic_energy_joules"] with
        | none => false
        | some [] => false
        | some (b :: _) => b) :=
  ⟨rfl, rfl, fun _ => rfl, fun _ _ => rfl⟩

/-- C9: the burst altitude is always either 5 or 0, and with altitude 0 the
blast computation takes the ground-impact branch, so the airburst formula
with its negative powers of h is evaluated only when h is positive (in fact
only at h = 5). -/
theorem airburst_formula_guarded :
    (∀ p : ImpactInputs, altitude_h_km p = 5 ∨ altitude_h_km p = 0) ∧
    (∀ E : ℝ,
      blastRadius E 0 = (pyPow E (1 / 3)).bind fun eb => some (5.08 * eb)) := by
  refine ⟨fun p => ?_, blastRadius_zero⟩
  by_cases hd : p.diameter_km < 0.05
  · exact Or.inl (altitude_air hd)
  · exact Or.inr (altitude_ground hd)

/-- C10: the unrounded ground blast radius is monotone nondecreasing in the
energy, and, with velocity, angle, density and efficiency fixed, increasing
the diameter within the ground-impact regime never decreases the rounded
blast field or the rounded final field of a returned result. -/
theorem ground_blast_monotone :
    (∀ E1 E2 : ℝ, 0 ≤ E1 → E1 ≤ E2 →
      groundBlastVal E1 ≤ groundBlastVal E2) ∧
    (∀ (p1 p2 : ImpactInputs) (r1 r2 : DamageResult),
      p1.velocity_km_s = p2.velocity_km_s →
      p1.impact_angle = p2.impact_angle →
      p1.densidade_rho = p2.densidade_rho →
      p1.eficiencia_eta = p2.eficiencia_eta →
      0.05 ≤ p1.diameter_km → p1.diameter_km ≤ p2.diameter_km →
      calculate_damage_from_pair_model p1 = some r1 →
      calculate_damage_from_pair_model p2 = some r2 →
      r1.raio_dano_explosao_km ≤ r2.raio_dano_explosao_km ∧
      r1.raio_dano_final_km ≤ r2.raio_dano_final_km) := by
  refine ⟨fun E1 E2 h0 h12 => groundBlastVal_mono h0 h12, ?_⟩
  intro p1 p2 r1 r2 hv ha hrho heta hd1 hd12 hc1 hc2
  have hd1n : ¬ p1.diameter_km < 0.05 := not_lt.mpr hd1
  have hd2n : ¬ p2.diameter_km < 0.05 := not_lt.mpr (le_trans hd1 hd12)
  obtain ⟨hE1, hcase1⟩ := calc_cases hc1
  obtain ⟨hE2, hcase2⟩ := calc_cases hc2
  rcases hcase1 with ⟨hd, -⟩ | ⟨-, rfl⟩
  · exact absurd hd hd1n
  rcases hcase2 with ⟨hd, -⟩ | ⟨-, rfl⟩
  · exact absurd hd hd2n
  have hdpos : 0 < p1.diameter_km := lt_of_lt_of_le (by norm_num) hd1
  have hE12 : energia_E_megatons p1 ≤ energia_E_megatons p2 := by
    have hf1 := energia_factor p1
    have hf2 := energia_factor p2
    rw [hv, ha, hrho] at hf1
    set c := 0.5 * (p2.densidade_rho * (4 / 3 * Real.pi * (1000 / 2 : ℝ) ^ 3)) *
      (p2.velocity_km_s * 1000) ^ 2 * Real.sin (radians p2.impact_angle) /
      4.184e15 with hcdef
    have hcpos : 0 < c := by
      by_contra hcle
      have hc0 : c ≤ 0 := not_lt.mp hcle
      have : energia_E_megatons p1 ≤ 0 := by
        rw [hf1]
        exact mul_nonpos_iff.mpr (Or.inl ⟨by positivity, hc0⟩)
      exact absurd this (not_le.mpr hE1)
    rw [hf1, hf2]
    exact mul_le_mul_of_nonneg_right
      (pow_le_pow_left₀ hdpos.le hd12 3) hcpos.le
  have hblast : groundBlastVal (energia_E_megatons p1) ≤
      groundBlastVal (energia_E_megatons p2) :=
    groundBlastVal_mono hE1.le hE12
  have hthermal : thermalVal (energia_E_megatons p1) 0 p1.eficiencia_eta ≤
      thermalVal (energia_E_megatons p2) 0 p2.eficiencia_eta := by
    rw [heta]
    exact thermalVal_zero_mono hE1 hE12
  exact ⟨round2_mono hblast, round2_mono (max_le_max hblast hthermal)⟩

/-- Witness for C10: formula monotonicity at 1 and 8, and field monotonicity
between the two concrete ground-impact inputs. -/
theorem ground_blast_monotone_witness :
    groundBlastVal 1 ≤ groundBlastVal 8 ∧
    (groundResult p_ground).raio_dano_explosao_km ≤
      (groundResult p_ground2).raio_dano_explosao_km :=
  ⟨ground_blast_monotone.1 1 8 (by norm_num) (by norm_num),
   (ground_blast_monotone.2 p_ground p_ground2 _ _ rfl rfl rfl rfl
      (by show (0.05 : ℝ) ≤ 0.14; norm_num)
      (by show (0.14 : ℝ) ≤ 0.28; norm_num)
      calc_p_ground calc_p_ground2).1⟩
